import Mathlib

/-!
Shallow embedding of the project-scoped tracker client
(src/project_client.go) and proofs about its request/response contract.

The client talks to a transport collaborator (`conn`) through two
capabilities, `CreateRequest` and `Do`.  The transport, the JSON library
and the decoded payloads are external to the file under verification, so
they are modelled as oracles: arbitrary functions packaged in `Conn` and
`JSONLib`.  Every operation of the client is translated into a pure Lean
function that returns its Go result together with the ordered trace of
transport calls it made, so that sequencing claims ("the second request
is never issued", "exactly one PUT") become statements about traces.
-/

namespace Tracker

/-- Errors are opaque values produced by collaborators; a string suffices. -/
abbrev Err := String

/-- `url.Values` as assembled by the query builders: a list of key/value
pairs.  Each builder sets every key at most once, so the list form is
faithful to the Go map. -/
abbrev Params := List (String × String)

/-- Go: `type IterationScope string` (src/project_client.go line 15). -/
abbrev IterationScope := String

def IterationScopeDone : IterationScope := "done"

def IterationScopeCurrent : IterationScope := "current"

def IterationScopeBacklog : IterationScope := "backlog"

def IterationScopeCurrentBacklog : IterationScope := "current_backlog"

def IterationScopeDoneCurrent : IterationScope := "done_current"

/-- Modelled from the spec: pagination metadata (total count and paging
position) parsed by the transport collaborator from response headers; the
client passes it through untouched.  Its Go definition is not under src/.
The zero value `{}` models Go's `Pagination{}`. -/
structure Pagination where
  Total : Int := 0
  Limit : Int := 0
  Offset : Int := 0
  Returned : Int := 0
deriving DecidableEq, Repr

/-- Modelled from the spec: a story record is plain data with a numeric
service-assigned `ID`; the client only ever inspects `ID` (for update
paths).  The zero value `{}` models Go's `Story{}`. -/
structure Story where
  ID : Int := 0
  Name : String := ""
deriving DecidableEq, Repr

/-- Modelled from the spec: a comment record; the client sets `Text` when
posting the comment of a composite deliver. -/
structure Comment where
  ID : Int := 0
  Text : String := ""
deriving DecidableEq, Repr

/-- Modelled from the spec: a task record, plain data with a numeric ID. -/
structure Task where
  ID : Int := 0
  Description : String := ""
deriving DecidableEq, Repr

/-- Modelled from the spec: a blocker record, plain data with a numeric ID. -/
structure Blocker where
  ID : Int := 0
  Description : String := ""
deriving DecidableEq, Repr

/-- Modelled from the spec: an activity record, plain data. -/
structure Activity where
  Kind : String := ""
deriving DecidableEq, Repr

/-- Modelled from the spec: a project-membership record, plain data. -/
structure ProjectMembership where
  ID : Int := 0
deriving DecidableEq, Repr

/-- The iteration record (src/project_client.go lines 30-46).  Fractional
(`float32`), timestamp (`time.Time`) and raw-JSON fields are modelled
abstractly as strings; the client never inspects any field of this
record, it only decodes into it. -/
structure Iteration where
  Number : Int := 0
  ProjectID : Int := 0
  Length : Int := 0
  TeamStrength : String := ""
  Stories : List Story := []
  Start : String := ""
  Finish : String := ""
  Velocity : String := ""
  Points : Int := 0
  AcceptedPoints : Int := 0
  EffectivePoints : String := ""
  Accepted : Option String := none
  Created : Option String := none
  Analytics : Option String := none
  Kind : String := ""
deriving DecidableEq, Repr

/-- `IterationsQuery` (src/project_client.go lines 48-54). -/
structure IterationsQuery where
  Scope : IterationScope := ""
  Label : String := ""
  Limit : Int := 0
  Offset : Int := 0
deriving DecidableEq, Repr

/-- `IterationsQuery.Query` (src/project_client.go lines 56-76): each
non-zero field contributes its parameter, in source order; `url.Values.Set`
on an initially empty map with four distinct keys is the same as appending
the pair. -/
def IterationsQuery.Query (query : IterationsQuery) : Params :=
  (if query.Scope = "" then [] else [("scope", query.Scope)]) ++
  (if query.Label = "" then [] else [("label", query.Label)]) ++
  (if query.Limit = 0 then [] else [("limit", toString query.Limit)]) ++
  (if query.Offset = 0 then [] else [("offset", toString query.Offset)])

/-- Modelled from the spec: the stories listing filter (its Go file is not
under src/); per the spec every query type maps each non-zero filter field
to exactly one parameter, zero-valued fields are omitted, and numeric
fields render as base-10 integer strings (scenario: `Limit 10, Offset 20`
gives exactly `limit=10&offset=20`). -/
structure StoriesQuery where
  Label : String := ""
  Limit : Int := 0
  Offset : Int := 0
deriving DecidableEq, Repr

/-- Modelled from the spec: parameter map of `StoriesQuery`, zero fields
omitted, numbers in base 10. -/
def StoriesQuery.Query (query : StoriesQuery) : Params :=
  (if query.Label = "" then [] else [("label", query.Label)]) ++
  (if query.Limit = 0 then [] else [("limit", toString query.Limit)]) ++
  (if query.Offset = 0 then [] else [("offset", toString query.Offset)])

/-- Modelled from the spec: the story-activity listing filter (its Go file
is not under src/), limit/offset paging with zero fields omitted. -/
structure ActivityQuery where
  Limit : Int := 0
  Offset : Int := 0
deriving DecidableEq, Repr

/-- Modelled from the spec: parameter map of `ActivityQuery`. -/
def ActivityQuery.Query (query : ActivityQuery) : Params :=
  (if query.Limit = 0 then [] else [("limit", toString query.Limit)]) ++
  (if query.Offset = 0 then [] else [("offset", toString query.Offset)])

/-- Modelled from the spec: the story-tasks listing filter (its Go file is
not under src/). -/
structure TaskQuery where
  Limit : Int := 0
  Offset : Int := 0
deriving DecidableEq, Repr

/-- Modelled from the spec: parameter map of `TaskQuery`. -/
def TaskQuery.Query (query : TaskQuery) : Params :=
  (if query.Limit = 0 then [] else [("limit", toString query.Limit)]) ++
  (if query.Offset = 0 then [] else [("offset", toString query.Offset)])

/-- Modelled from the spec: the story-comments listing filter (its Go file
is not under src/). -/
structure CommentsQuery where
  Limit : Int := 0
  Offset : Int := 0
deriving DecidableEq, Repr

/-- Modelled from the spec: parameter map of `CommentsQuery`. -/
def CommentsQuery.Query (query : CommentsQuery) : Params :=
  (if query.Limit = 0 then [] else [("limit", toString query.Limit)]) ++
  (if query.Offset = 0 then [] else [("offset", toString query.Offset)])

/-- An `*http.Request` as far as the client manipulates it: method, URL
path, query parameters, headers and an optional body.  The body carries
the bytes that were installed on the request (as a string). -/
structure Request where
  method : String
  path : String
  params : Params
  headers : List (String × String)
  body : Option String
deriving DecidableEq, Repr

/-- One call made to the transport collaborator, in program order. -/
inductive Call where
  | createRequest (method : String) (path : String) (params : Params)
  | doReq (request : Request)
deriving DecidableEq, Repr

/-- Modelled from the spec: the transport collaborator (`connection`, not
under src/).  `createErr` says whether `CreateRequest` fails for a given
method/path/params; on success `CreateRequest` yields the request
addressed exactly as asked, with no headers and no body (body attachment
is a separate explicit step of the client).  `doResult` gives the
pagination and error that `Do` returns for a request, and the `decode*`
oracles give the value found in the typed destination after `Do` returns
(the zero value when `Do` wrote nothing). -/
structure Conn where
  createErr : String → String → Params → Option Err
  doResult : Request → Pagination × Option Err
  decodeIterations : Request → List Iteration
  decodeStories : Request → List Story
  decodeStory : Request → Story
  decodeActivities : Request → List Activity
  decodeTasks : Request → List Task
  decodeTask : Request → Task
  decodeComments : Request → List Comment
  decodeComment : Request → Comment
  decodeBlocker : Request → Blocker
  decodeMemberships : Request → List ProjectMembership

/-- The canonical request `CreateRequest` builds on success. -/
def Request.base (method path : String) (params : Params) : Request :=
  { method := method, path := path, params := params, headers := [], body := none }

/-- Modelled from the spec: `CreateRequest(method, path, query) -> Request | error`. -/
def Conn.CreateRequest (c : Conn) (method path : String) (params : Params) :
    Except Err Request :=
  match c.createErr method path params with
  | some e => Except.error e
  | none => Except.ok (Request.base method path params)

/-- Modelled from the spec: the ambient `encoding/json` library.  Each
encoder returns the bytes written to the buffer together with the error
value `Encode` returned (which the client discards). -/
structure JSONLib where
  encodeStory : Story → String × Option Err
  encodeTask : Task → String × Option Err
  encodeComment : Comment → String × Option Err
  encodeBlocker : Blocker → String × Option Err

/-- `ProjectClient` (src/project_client.go lines 25-28): a project id and
the transport collaborator.  `jsonlib` stands for the ambient
`encoding/json` package, not for client state. -/
structure ProjectClient where
  id : Int
  conn : Conn
  jsonlib : JSONLib

/-- The `/projects/{id}` scoping computed inside `createRequest`
(src/project_client.go line 292): `fmt.Sprintf("/projects/%d%s", p.id, path)`. -/
def ProjectClient.projectPath (p : ProjectClient) (path : String) : String :=
  "/projects/" ++ toString p.id ++ path

/-- `ProjectClient.createRequest` (src/project_client.go lines 291-294). -/
def ProjectClient.createRequest (p : ProjectClient) (method path : String)
    (params : Params) : Except Err Request :=
  p.conn.CreateRequest method (p.projectPath path) params

/-- `ProjectClient.addJSONBodyReader` (src/project_client.go lines 296-299):
adds the `Content-Type: application/json` header and installs the body.
Go mutates the request in place; here the updated request is returned. -/
def ProjectClient.addJSONBodyReader (p : ProjectClient) (request : Request)
    (body : String) : Request :=
  { request with
      headers := request.headers ++ [("Content-Type", "application/json")],
      body := some body }

/-- `ProjectClient.addJSONBody` (src/project_client.go lines 301-303). -/
def ProjectClient.addJSONBody (p : ProjectClient) (request : Request)
    (body : String) : Request :=
  p.addJSONBodyReader request body

/-- The literal JSON body of `DeliverStory` (src/project_client.go line 175). -/
def jsonDelivered : String := "\x7b\"current_state\":\"delivered\"\x7d"

/-- `ProjectClient.Iterations` (src/project_client.go lines 79-92), paired
with its transport-call trace. -/
def ProjectClient.Iterations (p : ProjectClient) (query : IterationsQuery) :
    (List Iteration × Pagination × Option Err) × List Call :=
  match p.createRequest "GET" "/iterations" query.Query with
  | Except.error e =>
      (([], {}, some e),
       [Call.createRequest "GET" (p.projectPath "/iterations") query.Query])
  | Except.ok request =>
      match (p.conn.doResult request).2 with
      | some e =>
          (([], {}, some e),
           [Call.createRequest "GET" (p.projectPath "/iterations") query.Query,
            Call.doReq request])
      | none =>
          ((p.conn.decodeIterations request, (p.conn.doResult request).1, none),
           [Call.createRequest "GET" (p.projectPath "/iterations") query.Query,
            Call.doReq request])

/-- `ProjectClient.Stories` (src/project_client.go lines 94-107). -/
def ProjectClient.Stories (p : ProjectClient) (query : StoriesQuery) :
    (List Story × Pagination × Option Err) × List Call :=
  match p.createRequest "GET" "/stories" query.Query with
  | Except.error e =>
      (([], {}, some e),
       [Call.createRequest "GET" (p.projectPath "/stories") query.Query])
  | Except.ok request =>
      match (p.conn.doResult request).2 with
      | some e =>
          (([], {}, some e),
           [Call.createRequest "GET" (p.projectPath "/stories") query.Query,
            Call.doReq request])
      | none =>
          ((p.conn.decodeStories request, (p.conn.doResult request).1, none),
           [Call.createRequest "GET" (p.projectPath "/stories") query.Query,
            Call.doReq request])

/-- `ProjectClient.StoryActivity` (src/project_client.go lines 109-119):
named result `activities` starts nil and holds whatever `Do` decoded; the
pagination result of `Do` is assigned to the blank identifier. -/
def ProjectClient.StoryActivity (p : ProjectClient) (storyId : Int)
    (query : ActivityQuery) : (List Activity × Option Err) × List Call :=
  let url := "/stories/" ++ toString storyId ++ "/activity"
  match p.createRequest "GET" url query.Query with
  | Except.error e =>
      (([], some e), [Call.createRequest "GET" (p.projectPath url) query.Query])
  | Except.ok request =>
      ((p.conn.decodeActivities request, (p.conn.doResult request).2),
       [Call.createRequest "GET" (p.projectPath url) query.Query,
        Call.doReq request])

/-- `ProjectClient.StoryTasks` (src/project_client.go lines 121-131). -/
def ProjectClient.StoryTasks (p : ProjectClient) (storyId : Int)
    (query : TaskQuery) : (List Task × Option Err) × List Call :=
  let url := "/stories/" ++ toString storyId ++ "/tasks"
  match p.createRequest "GET" url query.Query with
  | Except.error e =>
      (([], some e), [Call.createRequest "GET" (p.projectPath url) query.Query])
  | Except.ok request =>
      ((p.conn.decodeTasks request, (p.conn.doResult request).2),
       [Call.createRequest "GET" (p.projectPath url) query.Query,
        Call.doReq request])

/-- `ProjectClient.StoryComments` (src/project_client.go lines 133-143). -/
def ProjectClient.StoryComments (p : ProjectClient) (storyId : Int)
    (query : CommentsQuery) : (List Comment × Option Err) × List Call :=
  let url := "/stories/" ++ toString storyId ++ "/comments"
  match p.createRequest "GET" url query.Query with
  | Except.error e =>
      (([], some e), [Call.createRequest "GET" (p.projectPath url) query.Query])
  | Except.ok request =>
      ((p.conn.decodeComments request, (p.conn.doResult request).2),
       [Call.createRequest "GET" (p.projectPath url) query.Query,
        Call.doReq request])

/-- `ProjectClient.DeliverStory` (src/project_client.go lines 168-179). -/
def ProjectClient.DeliverStory (p : ProjectClient) (storyId : Int) :
    Option Err × List Call :=
  let url := "/stories/" ++ toString storyId
  match p.createRequest "PUT" url [] with
  | Except.error e => (some e, [Call.createRequest "PUT" (p.projectPath url) []])
  | Except.ok request =>
      let request := p.addJSONBody request jsonDelivered
      ((p.conn.doResult request).2,
       [Call.createRequest "PUT" (p.projectPath url) [], Call.doReq request])

/-- `ProjectClient.DeliverStoryWithComment` (src/project_client.go lines
145-166): deliver first; only on success build and post the comment; the
`Encode` error of the comment payload is discarded (`.1`). -/
def ProjectClient.DeliverStoryWithComment (p : ProjectClient) (storyId : Int)
    (comment : String) : Option Err × List Call :=
  match p.DeliverStory storyId with
  | (some e, trace) => (some e, trace)
  | (none, trace) =>
      let url := "/stories/" ++ toString storyId ++ "/comments"
      match p.createRequest "POST" url [] with
      | Except.error e =>
          (some e, trace ++ [Call.createRequest "POST" (p.projectPath url) []])
      | Except.ok request =>
          let buffer := (p.jsonlib.encodeComment { Text := comment }).1
          let request := p.addJSONBodyReader request buffer
          ((p.conn.doResult request).2,
           trace ++ [Call.createRequest "POST" (p.projectPath url) [],
                     Call.doReq request])

/-- `ProjectClient.CreateStory` (src/project_client.go lines 181-195):
the `Encode` error is discarded (`.1`). -/
def ProjectClient.CreateStory (p : ProjectClient) (story : Story) :
    (Story × Option Err) × List Call :=
  match p.createRequest "POST" "/stories" [] with
  | Except.error e =>
      (({}, some e), [Call.createRequest "POST" (p.projectPath "/stories") []])
  | Except.ok request =>
      let buffer := (p.jsonlib.encodeStory story).1
      let request := p.addJSONBodyReader request buffer
      ((p.conn.decodeStory request, (p.conn.doResult request).2),
       [Call.createRequest "POST" (p.projectPath "/stories") [],
        Call.doReq request])

/-- `ProjectClient.UpdateStory` (src/project_client.go lines 197-212).
NOTE: the source returns `updatedStory, nil` (line 211), so the error of
`Do` is dropped; the embedding reproduces that faithfully. -/
def ProjectClient.UpdateStory (p : ProjectClient) (story : Story) :
    (Story × Option Err) × List Call :=
  let url := "/stories/" ++ toString story.ID
  match p.createRequest "PUT" url [] with
  | Except.error e =>
      (({}, some e), [Call.createRequest "PUT" (p.projectPath url) []])
  | Except.ok request =>
      let buffer := (p.jsonlib.encodeStory story).1
      let request := p.addJSONBodyReader request buffer
      ((p.conn.decodeStory request, none),
       [Call.createRequest "PUT" (p.projectPath url) [], Call.doReq request])

/-- `ProjectClient.DeleteStory` (src/project_client.go lines 214-223). -/
def ProjectClient.DeleteStory (p : ProjectClient) (storyId : Int) :
    Option Err × List Call :=
  let url := "/stories/" ++ toString storyId
  match p.createRequest "DELETE" url [] with
  | Except.error e =>
      (some e, [Call.createRequest "DELETE" (p.projectPath url) []])
  | Except.ok request =>
      ((p.conn.doResult request).2,
       [Call.createRequest "DELETE" (p.projectPath url) [], Call.doReq request])

/-- `ProjectClient.CreateTask` (src/project_client.go lines 225-240). -/
def ProjectClient.CreateTask (p : ProjectClient) (storyID : Int) (task : Task) :
    (Task × Option Err) × List Call :=
  let url := "/stories/" ++ toString storyID ++ "/tasks"
  match p.createRequest "POST" url [] with
  | Except.error e =>
      (({}, some e), [Call.createRequest "POST" (p.projectPath url) []])
  | Except.ok request =>
      let buffer := (p.jsonlib.encodeTask task).1
      let request := p.addJSONBodyReader request buffer
      ((p.conn.decodeTask request, (p.conn.doResult request).2),
       [Call.createRequest "POST" (p.projectPath url) [], Call.doReq request])

/-- `ProjectClient.CreateComment` (src/project_client.go lines 242-257). -/
def ProjectClient.CreateComment (p : ProjectClient) (storyID : Int)
    (comment : Comment) : (Comment × Option Err) × List Call :=
  let url := "/stories/" ++ toString storyID ++ "/comments"
  match p.createRequest "POST" url [] with
  | Except.error e =>
      (({}, some e), [Call.createRequest "POST" (p.projectPath url) []])
  | Except.ok request =>
      let buffer := (p.jsonlib.encodeComment comment).1
      let request := p.addJSONBodyReader request buffer
      ((p.conn.decodeComment request, (p.conn.doResult request).2),
       [Call.createRequest "POST" (p.projectPath url) [], Call.doReq request])

/-- `ProjectClient.CreateBlocker` (src/project_client.go lines 259-274). -/
def ProjectClient.CreateBlocker (p : ProjectClient) (storyID : Int)
    (blocker : Blocker) : (Blocker × Option Err) × List Call :=
  let url := "/stories/" ++ toString storyID ++ "/blockers"
  match p.createRequest "POST" url [] with
  | Except.error e =>
      (({}, some e), [Call.createRequest "POST" (p.projectPath url) []])
  | Except.ok request =>
      let buffer := (p.jsonlib.encodeBlocker blocker).1
      let request := p.addJSONBodyReader request buffer
      ((p.conn.decodeBlocker request, (p.conn.doResult request).2),
       [Call.createRequest "POST" (p.projectPath url) [], Call.doReq request])

/-- `ProjectClient.ProjectMemberships` (src/project_client.go lines 276-289). -/
def ProjectClient.ProjectMemberships (p : ProjectClient) :
    (List ProjectMembership × Option Err) × List Call :=
  match p.createRequest "GET" "/memberships" [] with
  | Except.error e =>
      (([], some e), [Call.createRequest "GET" (p.projectPath "/memberships") []])
  | Except.ok request =>
      match (p.conn.doResult request).2 with
      | some e =>
          (([], some e),
           [Call.createRequest "GET" (p.projectPath "/memberships") [],
            Call.doReq request])
      | none =>
          ((p.conn.decodeMemberships request, none),
           [Call.createRequest "GET" (p.projectPath "/memberships") [],
            Call.doReq request])

/-- The create-request entries of a trace, in order. -/
def createCalls (t : List Call) : List Call :=
  t.filter fun c =>
    match c with
    | Call.createRequest _ _ _ => true
    | Call.doReq _ => false

/-- The requests handed to `Do`, in order. -/
def doRequests (t : List Call) : List Request :=
  t.filterMap fun c =>
    match c with
    | Call.doReq r => some r
    | Call.createRequest _ _ _ => none

/-- Sample decoded story used by the concrete stub transports. -/
def sampleStory : Story := { ID := 7, Name := "decoded" }

/-- Sample pagination value used by the concrete stub transports. -/
def samplePagination : Pagination := { Total := 30, Limit := 10, Offset := 20, Returned := 10 }

/-- Build a stub transport from a `CreateRequest` failure oracle and a
`Do` outcome oracle, with fixed decoded values. -/
def connOf (ce : String → String → Params → Option Err)
    (dr : Request → Pagination × Option Err) : Conn where
  createErr := ce
  doResult := dr
  decodeIterations := fun _ => [{ Number := 4 }]
  decodeStories := fun _ => [sampleStory]
  decodeStory := fun _ => sampleStory
  decodeActivities := fun _ => [{ Kind := "story_update" }]
  decodeTasks := fun _ => [{ ID := 3 }]
  decodeTask := fun _ => { ID := 3 }
  decodeComments := fun _ => [{ ID := 9 }]
  decodeComment := fun _ => { ID := 9 }
  decodeBlocker := fun _ => { ID := 2 }
  decodeMemberships := fun _ => [{ ID := 5 }]

/-- Stub transport: everything succeeds. -/
def connOk : Conn := connOf (fun _ _ _ => none) (fun _ => (samplePagination, none))

/-- Stub transport: requests build fine, every `Do` fails. -/
def connDoFail : Conn := connOf (fun _ _ _ => none) (fun _ => ({}, some "boom"))

/-- Stub transport: every `CreateRequest` fails. -/
def connCreateFail : Conn := connOf (fun _ _ _ => some "bad request") (fun _ => ({}, none))

/-- Stub transport: the PUT of a deliver succeeds but the comment POST's
`Do` fails, to exercise the partial-completion path of the composite. -/
def connCommentDoFail : Conn :=
  connOf (fun _ _ _ => none)
    (fun r => if r.method = "POST" then ({}, some "comment failed") else (samplePagination, none))

/-- Stub JSON library: every encode succeeds, writing a fixed object. -/
def libOk : JSONLib where
  encodeStory := fun _ => ("\x7b\x7d", none)
  encodeTask := fun _ => ("\x7b\x7d", none)
  encodeComment := fun _ => ("\x7b\x7d", none)
  encodeBlocker := fun _ => ("\x7b\x7d", none)

/-- Stub JSON library: every encode fails after writing nothing, the way
`Encode` fails on an unsupported value. -/
def libEncFail : JSONLib where
  encodeStory := fun _ => ("", some "unsupported type")
  encodeTask := fun _ => ("", some "unsupported type")
  encodeComment := fun _ => ("", some "unsupported type")
  encodeBlocker := fun _ => ("", some "unsupported type")

/-- Client bound to project 1 over the all-success stub. -/
def pOk : ProjectClient := { id := 1, conn := connOk, jsonlib := libOk }

/-- Client bound to project 1 over the failing-`Do` stub. -/
def pDoFail : ProjectClient := { id := 1, conn := connDoFail, jsonlib := libOk }

/-- Client bound to project 1 over the failing-`CreateRequest` stub. -/
def pCreateFail : ProjectClient := { id := 1, conn := connCreateFail, jsonlib := libOk }

/-- Client bound to project 1 whose comment POST fails at `Do`. -/
def pCommentDoFail : ProjectClient := { id := 1, conn := connCommentDoFail, jsonlib := libOk }

/-- Client bound to project 1 whose JSON encodes fail. -/
def pEncFail : ProjectClient := { id := 1, conn := connOk, jsonlib := libEncFail }

/-- The request `UpdateStory` on the zero story sends for project 1. -/
def updateReqZero : Request :=
  { method := "PUT", path := "/projects/1/stories/0", params := [],
    headers := [("Content-Type", "application/json")], body := some "\x7b\x7d" }

/-- The comment-posting request built by the second step of
`DeliverStoryWithComment` when the transport accepts it: a POST on the
scoped comments path carrying the encoded comment as JSON body. -/
def commentRequest (p : ProjectClient) (sid : Int) (cm : String) : Request :=
  p.addJSONBodyReader
    (Request.base "POST" (p.projectPath ("/stories/" ++ toString sid ++ "/comments")) [])
    (p.jsonlib.encodeComment { Text := cm }).1

/-- The deliver request built by `DeliverStory` when the transport accepts
it: a PUT on the scoped story path with the literal delivered-state body. -/
def deliverRequest (p : ProjectClient) (sid : Int) : Request :=
  p.addJSONBody (Request.base "PUT" (p.projectPath ("/stories/" ++ toString sid)) [])
    jsonDelivered

/-- The same client against a JSON library that writes the same bytes but
reports arbitrary replacement errors: used to state that encode errors are
dead values. -/
def withEncodeErrs (p : ProjectClient) (es : Story → Option Err)
    (et : Task → Option Err) (ec : Comment → Option Err)
    (eb : Blocker → Option Err) : ProjectClient :=
  { p with jsonlib :=
    { encodeStory := fun s => ((p.jsonlib.encodeStory s).1, es s),
      encodeTask := fun t => ((p.jsonlib.encodeTask t).1, et t),
      encodeComment := fun c => ((p.jsonlib.encodeComment c).1, ec c),
      encodeBlocker := fun b => ((p.jsonlib.encodeBlocker b).1, eb b) } }

/-- The same client against a transport returning arbitrary replacement
pagination values (same errors, same decodes): used to state that an
operation never looks at the pagination `Do` returns. -/
def withPagination (p : ProjectClient) (f : Request → Pagination) : ProjectClient :=
  { p with conn := { p.conn with doResult := fun r => (f r, (p.conn.doResult r).2) } }

theorem createRequest_eq_err {p : ProjectClient} {m path : String} {ps : Params} {e : Err}
    (h : p.conn.createErr m (p.projectPath path) ps = some e) :
    p.createRequest m path ps = Except.error e := by
  simp [ProjectClient.createRequest, Conn.CreateRequest, h]

theorem createRequest_eq_ok {p : ProjectClient} {m path : String} {ps : Params}
    (h : p.conn.createErr m (p.projectPath path) ps = none) :
    p.createRequest m path ps = Except.ok (Request.base m (p.projectPath path) ps) := by
  simp [ProjectClient.createRequest, Conn.CreateRequest, h]

/-- C1 (code evaluated at the failing input): with a transport whose `Do`
always fails with "boom", `UpdateStory` on the zero story performs the PUT
and its `Do` reports the error, yet the client returns a `nil` error (the
source's line 211 returns `updatedStory, nil`); by contrast `DeliverStory`
propagates the same failure. -/
theorem C1_update_story_drops_do_error :
    (pDoFail.conn.doResult updateReqZero).2 = some "boom" ∧
    pDoFail.UpdateStory {} =
      ((sampleStory, none),
       [Call.createRequest "PUT" "/projects/1/stories/0" [], Call.doReq updateReqZero]) ∧
    (pDoFail.DeliverStory 0).1 = some "boom" := by
  refine ⟨rfl, ?_, rfl⟩
  rfl

/-- C3: `IterationsQuery.Query` contains a key exactly when the matching
field is non-zero ("scope", "label", "limit", "offset"), numeric fields
render in base 10, no other key ever appears, and the zero query yields
the empty parameter map. -/
theorem C3_iterations_query_param_map (query : IterationsQuery) :
    query.Query.lookup "scope" =
      (if query.Scope = "" then none else some query.Scope) ∧
    query.Query.lookup "label" =
      (if query.Label = "" then none else some query.Label) ∧
    query.Query.lookup "limit" =
      (if query.Limit = 0 then none else some (toString query.Limit)) ∧
    query.Query.lookup "offset" =
      (if query.Offset = 0 then none else some (toString query.Offset)) ∧
    (query.Query.all fun kv =>
      kv.1 == "scope" || kv.1 == "label" || kv.1 == "limit" || kv.1 == "offset") = true ∧
    IterationsQuery.Query {} = [] := by
  by_cases h1 : query.Scope = "" <;> by_cases h2 : query.Label = "" <;>
    by_cases h3 : query.Limit = 0 <;> by_cases h4 : query.Offset = 0 <;>
    simp [IterationsQuery.Query, List.lookup, h1, h2, h3, h4]

theorem Iterations_createCalls (p : ProjectClient) (q : IterationsQuery) :
    createCalls (p.Iterations q).2 =
      [Call.createRequest "GET" (p.projectPath "/iterations") q.Query] := by
  unfold ProjectClient.Iterations
  cases h : p.createRequest "GET" "/iterations" q.Query with
  | error e => simp [createCalls, h]
  | ok r => cases h2 : (p.conn.doResult r).2 <;> simp [createCalls, h, h2]

theorem Stories_createCalls (p : ProjectClient) (q : StoriesQuery) :
    createCalls (p.Stories q).2 =
      [Call.createRequest "GET" (p.projectPath "/stories") q.Query] := by
  unfold ProjectClient.Stories
  cases h : p.createRequest "GET" "/stories" q.Query with
  | error e => simp [createCalls, h]
  | ok r => cases h2 : (p.conn.doResult r).2 <;> simp [createCalls, h, h2]

theorem StoryActivity_createCalls (p : ProjectClient) (sid : Int) (q : ActivityQuery) :
    createCalls (p.StoryActivity sid q).2 =
      [Call.createRequest "GET"
        (p.projectPath ("/stories/" ++ toString sid ++ "/activity")) q.Query] := by
  unfold ProjectClient.StoryActivity
  cases h : p.createRequest "GET" ("/stories/" ++ toString sid ++ "/activity") q.Query <;>
    simp [createCalls, h]

theorem StoryTasks_createCalls (p : ProjectClient) (sid : Int) (q : TaskQuery) :
    createCalls (p.StoryTasks sid q).2 =
      [Call.createRequest "GET"
        (p.projectPath ("/stories/" ++ toString sid ++ "/tasks")) q.Query] := by
  unfold ProjectClient.StoryTasks
  cases h : p.createRequest "GET" ("/stories/" ++ toString sid ++ "/tasks") q.Query <;>
    simp [createCalls, h]

theorem StoryComments_createCalls (p : ProjectClient) (sid : Int) (q : CommentsQuery) :
    createCalls (p.StoryComments sid q).2 =
      [Call.createRequest "GET"
        (p.projectPath ("/stories/" ++ toString sid ++ "/comments")) q.Query] := by
  unfold ProjectClient.StoryComments
  cases h : p.createRequest "GET" ("/stories/" ++ toString sid ++ "/comments") q.Query <;>
    simp [createCalls, h]

theorem DeliverStory_createCalls (p : ProjectClient) (sid : Int) :
    createCalls (p.DeliverStory sid).2 =
      [Call.createRequest "PUT" (p.projectPath ("/stories/" ++ toString sid)) []] := by
  unfold ProjectClient.DeliverStory
  cases h : p.createRequest "PUT" ("/stories/" ++ toString sid) [] <;> simp [createCalls, h]

theorem DeliverStoryWithComment_createCalls (p : ProjectClient) (sid : Int) (cm : String) :
    createCalls (p.DeliverStoryWithComment sid cm).2 =
      [Call.createRequest "PUT" (p.projectPath ("/stories/" ++ toString sid)) []] ∨
    createCalls (p.DeliverStoryWithComment sid cm).2 =
      [Call.createRequest "PUT" (p.projectPath ("/stories/" ++ toString sid)) [],
       Call.createRequest "POST"
         (p.projectPath ("/stories/" ++ toString sid ++ "/comments")) []] := by
  unfold ProjectClient.DeliverStoryWithComment
  simp only [ProjectClient.DeliverStory]
  cases h1 : p.createRequest "PUT" ("/stories/" ++ toString sid) [] with
  | error e => left; simp [createCalls, h1]
  | ok r =>
    cases h2 : (p.conn.doResult (p.addJSONBody r jsonDelivered)).2 with
    | some e => left; simp [createCalls, h1, h2]
    | none =>
      cases h3 : p.createRequest "POST" ("/stories/" ++ toString sid ++ "/comments") [] with
      | error e => right; simp [createCalls, h1, h2, h3]
      | ok r2 => right; simp [createCalls, h1, h2, h3]

theorem CreateStory_createCalls (p : ProjectClient) (story : Story) :
    createCalls (p.CreateStory story).2 =
      [Call.createRequest "POST" (p.projectPath "/stories") []] := by
  unfold ProjectClient.CreateStory
  cases h : p.createRequest "POST" "/stories" [] <;> simp [createCalls, h]

theorem UpdateStory_createCalls (p : ProjectClient) (story : Story) :
    createCalls (p.UpdateStory story).2 =
      [Call.createRequest "PUT" (p.projectPath ("/stories/" ++ toString story.ID)) []] := by
  unfold ProjectClient.UpdateStory
  cases h : p.createRequest "PUT" ("/stories/" ++ toString story.ID) [] <;> simp [createCalls, h]

theorem DeleteStory_createCalls (p : ProjectClient) (sid : Int) :
    createCalls (p.DeleteStory sid).2 =
      [Call.createRequest "DELETE" (p.projectPath ("/stories/" ++ toString sid)) []] := by
  unfold ProjectClient.DeleteStory
  cases h : p.createRequest "DELETE" ("/stories/" ++ toString sid) [] <;> simp [createCalls, h]

theorem CreateTask_createCalls (p : ProjectClient) (sid : Int) (task : Task) :
    createCalls (p.CreateTask sid task).2 =
      [Call.createRequest "POST" (p.projectPath ("/stories/" ++ toString sid ++ "/tasks")) []] := by
  unfold ProjectClient.CreateTask
  cases h : p.createRequest "POST" ("/stories/" ++ toString sid ++ "/tasks") [] <;>
    simp [createCalls, h]

theorem CreateComment_createCalls (p : ProjectClient) (sid : Int) (comment : Comment) :
    createCalls (p.CreateComment sid comment).2 =
      [Call.createRequest "POST"
        (p.projectPath ("/stories/" ++ toString sid ++ "/comments")) []] := by
  unfold ProjectClient.CreateComment
  cases h : p.createRequest "POST" ("/stories/" ++ toString sid ++ "/comments") [] <;>
    simp [createCalls, h]

theorem CreateBlocker_createCalls (p : ProjectClient) (sid : Int) (blocker : Blocker) :
    createCalls (p.CreateBlocker sid blocker).2 =
      [Call.createRequest "POST"
        (p.projectPath ("/stories/" ++ toString sid ++ "/blockers")) []] := by
  unfold ProjectClient.CreateBlocker
  cases h : p.createRequest "POST" ("/stories/" ++ toString sid ++ "/blockers") [] <;>
    simp [createCalls, h]

theorem ProjectMemberships_createCalls (p : ProjectClient) :
    createCalls p.ProjectMemberships.2 =
      [Call.createRequest "GET" (p.projectPath "/memberships") []] := by
  unfold ProjectClient.ProjectMemberships
  cases h : p.createRequest "GET" "/memberships" [] with
  | error e => simp [createCalls, h]
  | ok r => cases h2 : (p.conn.doResult r).2 <;> simp [createCalls, h, h2]

/-- C2: every public operation routes through the project-scoping step:
each path handed to the transport's `CreateRequest` is exactly
`"/projects/" ++ id ++ relativePath` for the operation's relative path
(for the composite deliver, the second create call appears only when the
first sub-operation went through). -/
theorem C2_every_create_request_is_project_scoped (p : ProjectClient)
    (qI : IterationsQuery) (qS : StoriesQuery) (qA : ActivityQuery)
    (qT : TaskQuery) (qC : CommentsQuery) (sid : Int) (cm : String)
    (story : Story) (task : Task) (comment : Comment) (blocker : Blocker) :
    createCalls (p.Iterations qI).2 =
      [Call.createRequest "GET" ("/projects/" ++ toString p.id ++ "/iterations") qI.Query] ∧
    createCalls (p.Stories qS).2 =
      [Call.createRequest "GET" ("/projects/" ++ toString p.id ++ "/stories") qS.Query] ∧
    createCalls (p.StoryActivity sid qA).2 =
      [Call.createRequest "GET"
        ("/projects/" ++ toString p.id ++ ("/stories/" ++ toString sid ++ "/activity")) qA.Query] ∧
    createCalls (p.StoryTasks sid qT).2 =
      [Call.createRequest "GET"
        ("/projects/" ++ toString p.id ++ ("/stories/" ++ toString sid ++ "/tasks")) qT.Query] ∧
    createCalls (p.StoryComments sid qC).2 =
      [Call.createRequest "GET"
        ("/projects/" ++ toString p.id ++ ("/stories/" ++ toString sid ++ "/comments")) qC.Query] ∧
    createCalls (p.DeliverStory sid).2 =
      [Call.createRequest "PUT" ("/projects/" ++ toString p.id ++ ("/stories/" ++ toString sid)) []] ∧
    (createCalls (p.DeliverStoryWithComment sid cm).2 =
      [Call.createRequest "PUT" ("/projects/" ++ toString p.id ++ ("/stories/" ++ toString sid)) []] ∨
     createCalls (p.DeliverStoryWithComment sid cm).2 =
      [Call.createRequest "PUT" ("/projects/" ++ toString p.id ++ ("/stories/" ++ toString sid)) [],
       Call.createRequest "POST"
         ("/projects/" ++ toString p.id ++ ("/stories/" ++ toString sid ++ "/comments")) []]) ∧
    createCalls (p.CreateStory story).2 =
      [Call.createRequest "POST" ("/projects/" ++ toString p.id ++ "/stories") []] ∧
    createCalls (p.UpdateStory story).2 =
      [Call.createRequest "PUT"
        ("/projects/" ++ toString p.id ++ ("/stories/" ++ toString story.ID)) []] ∧
    createCalls (p.DeleteStory sid).2 =
      [Call.createRequest "DELETE"
        ("/projects/" ++ toString p.id ++ ("/stories/" ++ toString sid)) []] ∧
    createCalls (p.CreateTask sid task).2 =
      [Call.createRequest "POST"
        ("/projects/" ++ toString p.id ++ ("/stories/" ++ toString sid ++ "/tasks")) []] ∧
    createCalls (p.CreateComment sid comment).2 =
      [Call.createRequest "POST"
        ("/projects/" ++ toString p.id ++ ("/stories/" ++ toString sid ++ "/comments")) []] ∧
    createCalls (p.CreateBlocker sid blocker).2 =
      [Call.createRequest "POST"
        ("/projects/" ++ toString p.id ++ ("/stories/" ++ toString sid ++ "/blockers")) []] ∧
    createCalls p.ProjectMemberships.2 =
      [Call.createRequest "GET" ("/projects/" ++ toString p.id ++ "/memberships") []] :=
  ⟨Iterations_createCalls p qI, Stories_createCalls p qS,
   StoryActivity_createCalls p sid qA, StoryTasks_createCalls p sid qT,
   StoryComments_createCalls p sid qC, DeliverStory_createCalls p sid,
   DeliverStoryWithComment_createCalls p sid cm, CreateStory_createCalls p story,
   UpdateStory_createCalls p story, DeleteStory_createCalls p sid,
   CreateTask_createCalls p sid task, CreateComment_createCalls p sid comment,
   CreateBlocker_createCalls p sid blocker, ProjectMemberships_createCalls p⟩

/-- C5: `DeliverStory storyId` asks the transport for a PUT on the scoped
`/projects/{id}/stories/{storyId}` path with no query parameters; when the
request builds, exactly one request is handed to `Do` — a PUT on that path
whose JSON body is exactly `\x7b"current_state":"delivered"\x7d` — and no
other request is issued; when the request fails to build, nothing reaches
`Do` at all. -/
theorem C5_deliver_story_single_put (p : ProjectClient) (sid : Int) :
    (p.conn.createErr "PUT" (p.projectPath ("/stories/" ++ toString sid)) [] = none →
      p.DeliverStory sid =
        ((p.conn.doResult (deliverRequest p sid)).2,
         [Call.createRequest "PUT" (p.projectPath ("/stories/" ++ toString sid)) [],
          Call.doReq (deliverRequest p sid)]) ∧
      deliverRequest p sid =
        { method := "PUT", path := p.projectPath ("/stories/" ++ toString sid),
          params := [], headers := [("Content-Type", "application/json")],
          body := some "\x7b\"current_state\":\"delivered\"\x7d" }) ∧
    (∀ e, p.conn.createErr "PUT" (p.projectPath ("/stories/" ++ toString sid)) [] = some e →
      p.DeliverStory sid =
        (some e, [Call.createRequest "PUT" (p.projectPath ("/stories/" ++ toString sid)) []])) := by
  constructor
  · intro h
    refine ⟨?_, rfl⟩
    simp [ProjectClient.DeliverStory, createRequest_eq_ok h, deliverRequest]
  · intro e h
    simp [ProjectClient.DeliverStory, createRequest_eq_err h]

/-- C5 witness: against the all-success stub transport, `DeliverStory 42`
for project 1 issues exactly the PUT `/projects/1/stories/42` carrying the
delivered-state body. -/
theorem C5_deliver_story_single_put_witness :
    pOk.DeliverStory 42 =
      (none,
       [Call.createRequest "PUT" "/projects/1/stories/42" [],
        Call.doReq
          { method := "PUT", path := "/projects/1/stories/42", params := [],
            headers := [("Content-Type", "application/json")],
            body := some "\x7b\"current_state\":\"delivered\"\x7d" }]) :=
  ((C5_deliver_story_single_put pOk 42).1 rfl).1

/-- C4: in `DeliverStoryWithComment`, if the deliver step fails its error
is returned and the trace is exactly the deliver step's trace (the comment
step is never attempted: no further `CreateRequest` or `Do`); if delivery
succeeds but the comment step fails — at `CreateRequest` or at `Do` — that
failure is returned and the trace extends the deliver trace by only the
comment-step calls: no compensating request for the delivered story is
ever issued. -/
theorem C4_deliver_with_comment_sequencing (p : ProjectClient) (sid : Int) (cm : String) :
    (∀ e, (p.DeliverStory sid).1 = some e →
        p.DeliverStoryWithComment sid cm = (some e, (p.DeliverStory sid).2)) ∧
    ((p.DeliverStory sid).1 = none →
      (∀ e, p.conn.createErr "POST"
              (p.projectPath ("/stories/" ++ toString sid ++ "/comments")) [] = some e →
          p.DeliverStoryWithComment sid cm =
            (some e, (p.DeliverStory sid).2 ++
              [Call.createRequest "POST"
                (p.projectPath ("/stories/" ++ toString sid ++ "/comments")) []])) ∧
      (p.conn.createErr "POST"
          (p.projectPath ("/stories/" ++ toString sid ++ "/comments")) [] = none →
        p.DeliverStoryWithComment sid cm =
          ((p.conn.doResult (commentRequest p sid cm)).2,
           (p.DeliverStory sid).2 ++
             [Call.createRequest "POST"
                (p.projectPath ("/stories/" ++ toString sid ++ "/comments")) [],
              Call.doReq (commentRequest p sid cm)]))) := by
  constructor
  · intro e he
    cases hd : p.DeliverStory sid with
    | mk de dt =>
      rw [hd] at he
      simp only at he
      subst he
      simp [ProjectClient.DeliverStoryWithComment, hd]
  · intro h0
    cases hd : p.DeliverStory sid with
    | mk de dt =>
      rw [hd] at h0
      simp only at h0
      subst h0
      constructor
      · intro e he
        simp [ProjectClient.DeliverStoryWithComment, hd, createRequest_eq_err he]
      · intro he
        simp [ProjectClient.DeliverStoryWithComment, hd, createRequest_eq_ok he,
          commentRequest]

/-- C4 witness: with a transport whose every `Do` fails, the composite
returns the deliver error and stops at the deliver trace; with a transport
failing only the POST, the comment-post error is surfaced and the trace
adds exactly the two comment-step calls. -/
theorem C4_deliver_with_comment_sequencing_witness :
    pDoFail.DeliverStoryWithComment 7 "late" = (some "boom", (pDoFail.DeliverStory 7).2) ∧
    pCommentDoFail.DeliverStoryWithComment 7 "late" =
      (some "comment failed",
       (pCommentDoFail.DeliverStory 7).2 ++
         [Call.createRequest "POST" "/projects/1/stories/7/comments" [],
          Call.doReq (commentRequest pCommentDoFail 7 "late")]) :=
  ⟨(C4_deliver_with_comment_sequencing pDoFail 7 "late").1 "boom" rfl,
   ((C4_deliver_with_comment_sequencing pCommentDoFail 7 "late").2 rfl).2 rfl⟩

/-- C6: no GET or DELETE operation ever hands `Do` a request carrying a
body, while every create/update POST/PUT operation — and both steps of the
composite deliver — hands `Do` a request that carries a body and the
`Content-Type: application/json` header. -/
theorem C6_body_and_content_type_discipline (p : ProjectClient)
    (qI : IterationsQuery) (qS : StoriesQuery) (qA : ActivityQuery)
    (qT : TaskQuery) (qC : CommentsQuery) (sid : Int) (cm : String)
    (story : Story) (task : Task) (comment : Comment) (blocker : Blocker) :
    ((doRequests (p.Iterations qI).2).all fun r => r.body.isNone) = true ∧
    ((doRequests (p.Stories qS).2).all fun r => r.body.isNone) = true ∧
    ((doRequests (p.StoryActivity sid qA).2).all fun r => r.body.isNone) = true ∧
    ((doRequests (p.StoryTasks sid qT).2).all fun r => r.body.isNone) = true ∧
    ((doRequests (p.StoryComments sid qC).2).all fun r => r.body.isNone) = true ∧
    ((doRequests (p.DeleteStory sid).2).all fun r => r.body.isNone) = true ∧
    ((doRequests p.ProjectMemberships.2).all fun r => r.body.isNone) = true ∧
    ((doRequests (p.CreateStory story).2).all fun r =>
      r.body.isSome && r.headers.contains ("Content-Type", "application/json")) = true ∧
    ((doRequests (p.UpdateStory story).2).all fun r =>
      r.body.isSome && r.headers.contains ("Content-Type", "application/json")) = true ∧
    ((doRequests (p.CreateTask sid task).2).all fun r =>
      r.body.isSome && r.headers.contains ("Content-Type", "application/json")) = true ∧
    ((doRequests (p.CreateComment sid comment).2).all fun r =>
      r.body.isSome && r.headers.contains ("Content-Type", "application/json")) = true ∧
    ((doRequests (p.CreateBlocker sid blocker).2).all fun r =>
      r.body.isSome && r.headers.contains ("Content-Type", "application/json")) = true ∧
    ((doRequests (p.DeliverStory sid).2).all fun r =>
      r.body.isSome && r.headers.contains ("Content-Type", "application/json")) = true ∧
    ((doRequests (p.DeliverStoryWithComment sid cm).2).all fun r =>
      r.body.isSome && r.headers.contains ("Content-Type", "application/json")) = true := by
  refine ⟨?_, ?_, ?_, ?_, ?_, ?_, ?_, ?_, ?_, ?_, ?_, ?_, ?_, ?_⟩
  · cases hc : p.conn.createErr "GET" (p.projectPath "/iterations") qI.Query with
    | some e => simp [ProjectClient.Iterations, createRequest_eq_err hc, doRequests]
    | none =>
      cases h2 : (p.conn.doResult (Request.base "GET" (p.projectPath "/iterations") qI.Query)).2 <;>
        simp only [Request.base] at h2 <;>
        simp [ProjectClient.Iterations, createRequest_eq_ok hc, doRequests, Request.base, h2]
  · cases hc : p.conn.createErr "GET" (p.projectPath "/stories") qS.Query with
    | some e => simp [ProjectClient.Stories, createRequest_eq_err hc, doRequests]
    | none =>
      cases h2 : (p.conn.doResult (Request.base "GET" (p.projectPath "/stories") qS.Query)).2 <;>
        simp only [Request.base] at h2 <;>
        simp [ProjectClient.Stories, createRequest_eq_ok hc, doRequests, Request.base, h2]
  · cases hc : p.conn.createErr "GET"
        (p.projectPath ("/stories/" ++ toString sid ++ "/activity")) qA.Query with
    | some e => simp [ProjectClient.StoryActivity, createRequest_eq_err hc, doRequests]
    | none =>
      simp [ProjectClient.StoryActivity, createRequest_eq_ok hc, doRequests, Request.base]
  · cases hc : p.conn.createErr "GET"
        (p.projectPath ("/stories/" ++ toString sid ++ "/tasks")) qT.Query with
    | some e => simp [ProjectClient.StoryTasks, createRequest_eq_err hc, doRequests]
    | none =>
      simp [ProjectClient.StoryTasks, createRequest_eq_ok hc, doRequests, Request.base]
  · cases hc : p.conn.createErr "GET"
        (p.projectPath ("/stories/" ++ toString sid ++ "/comments")) qC.Query with
    | some e => simp [ProjectClient.StoryComments, createRequest_eq_err hc, doRequests]
    | none =>
      simp [ProjectClient.StoryComments, createRequest_eq_ok hc, doRequests, Request.base]
  · cases hc : p.conn.createErr "DELETE"
        (p.projectPath ("/stories/" ++ toString sid)) [] with
    | some e => simp [ProjectClient.DeleteStory, createRequest_eq_err hc, doRequests]
    | none =>
      simp [ProjectClient.DeleteStory, createRequest_eq_ok hc, doRequests, Request.base]
  · cases hc : p.conn.createErr "GET" (p.projectPath "/memberships") [] with
    | some e => simp [ProjectClient.ProjectMemberships, createRequest_eq_err hc, doRequests]
    | none =>
      cases h2 : (p.conn.doResult (Request.base "GET" (p.projectPath "/memberships") [])).2 <;>
        simp only [Request.base] at h2 <;>
        simp [ProjectClient.ProjectMemberships, createRequest_eq_ok hc, doRequests,
          Request.base, h2]
  · cases hc : p.conn.createErr "POST" (p.projectPath "/stories") [] with
    | some e => simp [ProjectClient.CreateStory, createRequest_eq_err hc, doRequests]
    | none =>
      simp [ProjectClient.CreateStory, createRequest_eq_ok hc, doRequests, Request.base,
        ProjectClient.addJSONBodyReader]
  · cases hc : p.conn.createErr "PUT"
        (p.projectPath ("/stories/" ++ toString story.ID)) [] with
    | some e => simp [ProjectClient.UpdateStory, createRequest_eq_err hc, doRequests]
    | none =>
      simp [ProjectClient.UpdateStory, createRequest_eq_ok hc, doRequests, Request.base,
        ProjectClient.addJSONBodyReader]
  · cases hc : p.conn.createErr "POST"
        (p.projectPath ("/stories/" ++ toString sid ++ "/tasks")) [] with
    | some e => simp [ProjectClient.CreateTask, createRequest_eq_err hc, doRequests]
    | none =>
      simp [ProjectClient.CreateTask, createRequest_eq_ok hc, doRequests, Request.base,
        ProjectClient.addJSONBodyReader]
  · cases hc : p.conn.createErr "POST"
        (p.projectPath ("/stories/" ++ toString sid ++ "/comments")) [] with
    | some e => simp [ProjectClient.CreateComment, createRequest_eq_err hc, doRequests]
    | none =>
      simp [ProjectClient.CreateComment, createRequest_eq_ok hc, doRequests, Request.base,
        ProjectClient.addJSONBodyReader]
  · cases hc : p.conn.createErr "POST"
        (p.projectPath ("/stories/" ++ toString sid ++ "/blockers")) [] with
    | some e => simp [ProjectClient.CreateBlocker, createRequest_eq_err hc, doRequests]
    | none =>
      simp [ProjectClient.CreateBlocker, createRequest_eq_ok hc, doRequests, Request.base,
        ProjectClient.addJSONBodyReader]
  · cases hc : p.conn.createErr "PUT" (p.projectPath ("/stories/" ++ toString sid)) [] with
    | some e => simp [ProjectClient.DeliverStory, createRequest_eq_err hc, doRequests]
    | none =>
      simp [ProjectClient.DeliverStory, createRequest_eq_ok hc, doRequests, Request.base,
        ProjectClient.addJSONBody, ProjectClient.addJSONBodyReader]
  · simp only [ProjectClient.DeliverStoryWithComment, ProjectClient.DeliverStory]
    cases hc : p.conn.createErr "PUT" (p.projectPath ("/stories/" ++ toString sid)) [] with
    | some e => simp [createRequest_eq_err hc, doRequests]
    | none =>
      cases h2 : (p.conn.doResult
          (p.addJSONBody (Request.base "PUT" (p.projectPath ("/stories/" ++ toString sid)) [])
            jsonDelivered)).2 with
      | some e =>
        simp only [Request.base, ProjectClient.addJSONBody,
          ProjectClient.addJSONBodyReader, List.nil_append] at h2
        simp [createRequest_eq_ok hc, doRequests, Request.base, h2,
          ProjectClient.addJSONBody, ProjectClient.addJSONBodyReader]
      | none =>
        cases hc2 : p.conn.createErr "POST"
            (p.projectPath ("/stories/" ++ toString sid ++ "/comments")) [] with
        | some e =>
          simp only [Request.base, ProjectClient.addJSONBody,
            ProjectClient.addJSONBodyReader, List.nil_append] at h2
          simp [createRequest_eq_ok hc, createRequest_eq_err hc2, doRequests, Request.base,
            h2, ProjectClient.addJSONBody, ProjectClient.addJSONBodyReader]
        | none =>
          simp only [Request.base, ProjectClient.addJSONBody,
            ProjectClient.addJSONBodyReader, List.nil_append] at h2
          simp [createRequest_eq_ok hc, createRequest_eq_ok hc2, doRequests, Request.base,
            h2, ProjectClient.addJSONBody, ProjectClient.addJSONBodyReader]

/-- C7: when the transport accepts the request and `Do` succeeds, `Stories`
(and likewise `Iterations`) returns exactly the slice `Do` decoded into the
destination together with the exact pagination value `Do` returned, both
unchanged; and the stories query `Limit 10, Offset 20` renders exactly the
parameters `limit=10` and `offset=20`, with no other keys. -/
theorem C7_list_results_pass_through (p : ProjectClient) (qS : StoriesQuery)
    (qI : IterationsQuery) :
    (p.conn.createErr "GET" (p.projectPath "/stories") qS.Query = none →
      (p.conn.doResult (Request.base "GET" (p.projectPath "/stories") qS.Query)).2 = none →
      (p.Stories qS).1 =
        (p.conn.decodeStories (Request.base "GET" (p.projectPath "/stories") qS.Query),
         (p.conn.doResult (Request.base "GET" (p.projectPath "/stories") qS.Query)).1,
         none)) ∧
    (p.conn.createErr "GET" (p.projectPath "/iterations") qI.Query = none →
      (p.conn.doResult (Request.base "GET" (p.projectPath "/iterations") qI.Query)).2 = none →
      (p.Iterations qI).1 =
        (p.conn.decodeIterations (Request.base "GET" (p.projectPath "/iterations") qI.Query),
         (p.conn.doResult (Request.base "GET" (p.projectPath "/iterations") qI.Query)).1,
         none)) ∧
    StoriesQuery.Query { Limit := 10, Offset := 20 } = [("limit", "10"), ("offset", "20")] := by
  refine ⟨?_, ?_, by decide⟩
  · intro h1 h2
    simp only [Request.base] at h2
    simp [ProjectClient.Stories, createRequest_eq_ok h1, Request.base, h2]
  · intro h1 h2
    simp only [Request.base] at h2
    simp [ProjectClient.Iterations, createRequest_eq_ok h1, Request.base, h2]

/-- C7 witness: against the all-success stub (which decodes a fixed story
list and returns a fixed pagination), `Stories` with `Limit 10, Offset 20`
hands back the stub's decoded list and pagination unchanged. -/
theorem C7_list_results_pass_through_witness :
    (pOk.Stories { Limit := 10, Offset := 20 }).1 = ([sampleStory], samplePagination, none) ∧
    (pOk.Iterations {}).1 = ([{ Number := 4 }], samplePagination, none) :=
  ⟨(C7_list_results_pass_through pOk { Limit := 10, Offset := 20 } {}).1 rfl rfl,
   (C7_list_results_pass_through pOk { Limit := 10, Offset := 20 } {}).2.1 rfl rfl⟩

/-- C8: whenever the transport's `CreateRequest` rejects an operation's
request, the operation returns that error at once with zero-valued
payload results, and nothing reaches `Do`: the trace holds only the failed
create call (for the composite deliver the hypothesis is on its first,
PUT, request). -/
theorem C8_create_request_error_short_circuits (p : ProjectClient)
    (qI : IterationsQuery) (qS : StoriesQuery) (qA : ActivityQuery)
    (qT : TaskQuery) (qC : CommentsQuery) (sid : Int) (cm : String)
    (story : Story) (task : Task) (comment : Comment) (blocker : Blocker) (e : Err) :
    (p.conn.createErr "GET" (p.projectPath "/iterations") qI.Query = some e →
      p.Iterations qI = (([], {}, some e),
        [Call.createRequest "GET" (p.projectPath "/iterations") qI.Query])) ∧
    (p.conn.createErr "GET" (p.projectPath "/stories") qS.Query = some e →
      p.Stories qS = (([], {}, some e),
        [Call.createRequest "GET" (p.projectPath "/stories") qS.Query])) ∧
    (p.conn.createErr "GET"
        (p.projectPath ("/stories/" ++ toString sid ++ "/activity")) qA.Query = some e →
      p.StoryActivity sid qA = (([], some e),
        [Call.createRequest "GET"
          (p.projectPath ("/stories/" ++ toString sid ++ "/activity")) qA.Query])) ∧
    (p.conn.createErr "GET"
        (p.projectPath ("/stories/" ++ toString sid ++ "/tasks")) qT.Query = some e →
      p.StoryTasks sid qT = (([], some e),
        [Call.createRequest "GET"
          (p.projectPath ("/stories/" ++ toString sid ++ "/tasks")) qT.Query])) ∧
    (p.conn.createErr "GET"
        (p.projectPath ("/stories/" ++ toString sid ++ "/comments")) qC.Query = some e →
      p.StoryComments sid qC = (([], some e),
        [Call.createRequest "GET"
          (p.projectPath ("/stories/" ++ toString sid ++ "/comments")) qC.Query])) ∧
    (p.conn.createErr "PUT" (p.projectPath ("/stories/" ++ toString sid)) [] = some e →
      p.DeliverStory sid = (some e,
        [Call.createRequest "PUT" (p.projectPath ("/stories/" ++ toString sid)) []])) ∧
    (p.conn.createErr "PUT" (p.projectPath ("/stories/" ++ toString sid)) [] = some e →
      p.DeliverStoryWithComment sid cm = (some e,
        [Call.createRequest "PUT" (p.projectPath ("/stories/" ++ toString sid)) []])) ∧
    (p.conn.createErr "POST" (p.projectPath "/stories") [] = some e →
      p.CreateStory story = (({}, some e),
        [Call.createRequest "POST" (p.projectPath "/stories") []])) ∧
    (p.conn.createErr "PUT" (p.projectPath ("/stories/" ++ toString story.ID)) [] = some e →
      p.UpdateStory story = (({}, some e),
        [Call.createRequest "PUT" (p.projectPath ("/stories/" ++ toString story.ID)) []])) ∧
    (p.conn.createErr "DELETE" (p.projectPath ("/stories/" ++ toString sid)) [] = some e →
      p.DeleteStory sid = (some e,
        [Call.createRequest "DELETE" (p.projectPath ("/stories/" ++ toString sid)) []])) ∧
    (p.conn.createErr "POST"
        (p.projectPath ("/stories/" ++ toString sid ++ "/tasks")) [] = some e →
      p.CreateTask sid task = (({}, some e),
        [Call.createRequest "POST"
          (p.projectPath ("/stories/" ++ toString sid ++ "/tasks")) []])) ∧
    (p.conn.createErr "POST"
        (p.projectPath ("/stories/" ++ toString sid ++ "/comments")) [] = some e →
      p.CreateComment sid comment = (({}, some e),
        [Call.createRequest "POST"
          (p.projectPath ("/stories/" ++ toString sid ++ "/comments")) []])) ∧
    (p.conn.createErr "POST"
        (p.projectPath ("/stories/" ++ toString sid ++ "/blockers")) [] = some e →
      p.CreateBlocker sid blocker = (({}, some e),
        [Call.createRequest "POST"
          (p.projectPath ("/stories/" ++ toString sid ++ "/blockers")) []])) ∧
    (p.conn.createErr "GET" (p.projectPath "/memberships") [] = some e →
      p.ProjectMemberships = (([], some e),
        [Call.createRequest "GET" (p.projectPath "/memberships") []])) := by
  refine ⟨?_, ?_, ?_, ?_, ?_, ?_, ?_, ?_, ?_, ?_, ?_, ?_, ?_, ?_⟩ <;> intro h
  · simp [ProjectClient.Iterations, createRequest_eq_err h]
  · simp [ProjectClient.Stories, createRequest_eq_err h]
  · simp [ProjectClient.StoryActivity, createRequest_eq_err h]
  · simp [ProjectClient.StoryTasks, createRequest_eq_err h]
  · simp [ProjectClient.StoryComments, createRequest_eq_err h]
  · simp [ProjectClient.DeliverStory, createRequest_eq_err h]
  · simp [ProjectClient.DeliverStoryWithComment, ProjectClient.DeliverStory,
      createRequest_eq_err h]
  · simp [ProjectClient.CreateStory, createRequest_eq_err h]
  · simp [ProjectClient.UpdateStory, createRequest_eq_err h]
  · simp [ProjectClient.DeleteStory, createRequest_eq_err h]
  · simp [ProjectClient.CreateTask, createRequest_eq_err h]
  · simp [ProjectClient.CreateComment, createRequest_eq_err h]
  · simp [ProjectClient.CreateBlocker, createRequest_eq_err h]
  · simp [ProjectClient.ProjectMemberships, createRequest_eq_err h]

/-- C8 witness: against the stub transport that rejects every
`CreateRequest` with "bad request", listing iterations and creating a
story both surface that error with zero-valued payloads and a trace
holding only the failed create call. -/
theorem C8_create_request_error_short_circuits_witness :
    pCreateFail.Iterations {} = (([], {}, some "bad request"),
      [Call.createRequest "GET" "/projects/1/iterations" []]) ∧
    pCreateFail.CreateStory {} = (({}, some "bad request"),
      [Call.createRequest "POST" "/projects/1/stories" []]) :=
  ⟨(C8_create_request_error_short_circuits pCreateFail {} {} {} {} {} 0 "" {} {} {} {}
      "bad request").1 rfl,
   (C8_create_request_error_short_circuits pCreateFail {} {} {} {} {} 0 "" {} {} {} {}
      "bad request").2.2.2.2.2.2.2.1 rfl⟩

/-- C9: in every body-sending operation the error half of the JSON
encoder's result is dead: replacing it by arbitrary errors (while keeping
the written bytes) changes nothing about any operation; concretely, with
an encoder that fails after writing nothing, `CreateStory` still sends the
request — carrying the empty bytes — and returns no error at all. -/
theorem C9_encode_error_discarded (p : ProjectClient) (es : Story → Option Err)
    (et : Task → Option Err) (ec : Comment → Option Err) (eb : Blocker → Option Err)
    (sid : Int) (cm : String) (story : Story) (task : Task) (comment : Comment)
    (blocker : Blocker) :
    (withEncodeErrs p es et ec eb).CreateStory story = p.CreateStory story ∧
    (withEncodeErrs p es et ec eb).UpdateStory story = p.UpdateStory story ∧
    (withEncodeErrs p es et ec eb).CreateTask sid task = p.CreateTask sid task ∧
    (withEncodeErrs p es et ec eb).CreateComment sid comment = p.CreateComment sid comment ∧
    (withEncodeErrs p es et ec eb).CreateBlocker sid blocker = p.CreateBlocker sid blocker ∧
    (withEncodeErrs p es et ec eb).DeliverStoryWithComment sid cm =
      p.DeliverStoryWithComment sid cm ∧
    (pEncFail.jsonlib.encodeStory {}).2 = some "unsupported type" ∧
    pEncFail.CreateStory {} =
      ((sampleStory, none),
       [Call.createRequest "POST" "/projects/1/stories" [],
        Call.doReq
          { method := "POST", path := "/projects/1/stories", params := [],
            headers := [("Content-Type", "application/json")], body := some "" }]) :=
  ⟨rfl, rfl, rfl, rfl, rfl, rfl, rfl, rfl⟩

/-- C10: `StoryActivity`, `StoryTasks`, `StoryComments` and
`ProjectMemberships` discard the pagination `Do` returns — replacing it by
arbitrary values changes nothing — and, when the call goes through, they
return exactly the decoded slice together with `Do`'s error. -/
theorem C10_pagination_discarded (p : ProjectClient) (f : Request → Pagination)
    (sid : Int) (qA : ActivityQuery) (qT : TaskQuery) (qC : CommentsQuery) :
    (withPagination p f).StoryActivity sid qA = p.StoryActivity sid qA ∧
    (withPagination p f).StoryTasks sid qT = p.StoryTasks sid qT ∧
    (withPagination p f).StoryComments sid qC = p.StoryComments sid qC ∧
    (withPagination p f).ProjectMemberships = p.ProjectMemberships ∧
    (p.conn.createErr "GET"
        (p.projectPath ("/stories/" ++ toString sid ++ "/activity")) qA.Query = none →
      (p.StoryActivity sid qA).1 =
        (p.conn.decodeActivities
          (Request.base "GET"
            (p.projectPath ("/stories/" ++ toString sid ++ "/activity")) qA.Query),
         (p.conn.doResult
           (Request.base "GET"
             (p.projectPath ("/stories/" ++ toString sid ++ "/activity")) qA.Query)).2)) ∧
    (p.conn.createErr "GET"
        (p.projectPath ("/stories/" ++ toString sid ++ "/tasks")) qT.Query = none →
      (p.StoryTasks sid qT).1 =
        (p.conn.decodeTasks
          (Request.base "GET"
            (p.projectPath ("/stories/" ++ toString sid ++ "/tasks")) qT.Query),
         (p.conn.doResult
           (Request.base "GET"
             (p.projectPath ("/stories/" ++ toString sid ++ "/tasks")) qT.Query)).2)) ∧
    (p.conn.createErr "GET"
        (p.projectPath ("/stories/" ++ toString sid ++ "/comments")) qC.Query = none →
      (p.StoryComments sid qC).1 =
        (p.conn.decodeComments
          (Request.base "GET"
            (p.projectPath ("/stories/" ++ toString sid ++ "/comments")) qC.Query),
         (p.conn.doResult
           (Request.base "GET"
             (p.projectPath ("/stories/" ++ toString sid ++ "/comments")) qC.Query)).2)) := by
  refine ⟨rfl, rfl, rfl, rfl, ?_, ?_, ?_⟩
  · intro h
    simp [ProjectClient.StoryActivity, createRequest_eq_ok h, Request.base]
  · intro h
    simp [ProjectClient.StoryTasks, createRequest_eq_ok h, Request.base]
  · intro h
    simp [ProjectClient.StoryComments, createRequest_eq_ok h, Request.base]

/-- C10 witness: against the all-success stub, `StoryActivity` hands back
the stub's decoded activity list with no pagination anywhere in sight. -/
theorem C10_pagination_discarded_witness :
    (pOk.StoryActivity 3 {}).1 = ([{ Kind := "story_update" }], none) :=
  (C10_pagination_discarded pOk (fun _ => {}) 3 {} {} {}).2.2.2.2.1 rfl

end Tracker
